import Mathlib

/-!
Verification of the copilot-thesys-api chat backend.

The development shallowly embeds the per-thread message store
(`src/services/messageStore.ts`), the chat route handler
(`src/routes/chat.ts`), the static tool list (`src/services/tools.ts`)
and the Xano MCP client (`src/services/mcp/xanoMcpClient.ts`) as pure
Lean functions, and proves the spec claims about them.

Conventions of the embedding:
* a TypeScript mutable module-level object becomes an explicit state
  value threaded through the functions;
* `undefined`-able strings become `Option String`; TypeScript
  truthiness of such a value (`undefined`, `null` and `""` are falsy)
  is the predicate `tsTruthy`;
* asynchronous calls that can reject become functions taking the
  outcome of the awaited operation as an explicit argument;
* the Express response object becomes a record tracking the pending
  header fields, whether the header block has been transmitted, how
  many times a header block was transmitted, the body chunks written,
  and whether a JSON error body was sent.
-/

namespace CopilotApi

/-- TypeScript truthiness of an optional string: `undefined` and `""`
are falsy, every other string is truthy. -/
def tsTruthy : Option String → Bool
  | none => false
  | some s => !(s == "")

/-- Embedding of `DBMessage` from `src/services/messageStore.ts`:
an OpenAI chat message together with an optional bookkeeping `id`.
Only the fields the claims touch are modelled: `role`, `content`
and the optional `id`. -/
structure DBMessage where
  role : String
  content : String
  id : Option String := none
deriving Repr, DecidableEq

namespace MessageStore

/-- Exact text of the `SYSTEM_PROMPT` template literal of
`src/services/messageStore.ts` (it starts and ends with a newline). -/
def SYSTEM_PROMPT : String :=
  "\nYou are a helpful and friendly AI assistant. Here are some rules you must follow:\n\nRules:\n- Be concise, accurate, and helpful in your responses.\n- Use the available tools (web search, weather) when you need current information.\n- When using web search, provide sources for the information you find.\n- Format your responses clearly using markdown when appropriate.\n"

/-- The message `getMessageStore` seeds a fresh thread with:
`{ role: "system", content: SYSTEM_PROMPT }`. -/
def seedMessage : DBMessage :=
  { role := "system", content := SYSTEM_PROMPT }

/-- State of the module-level `messagesStore` object: a finite map
from thread id to its message list, represented as an association
list (first binding wins, as for a JS object there is at most one
binding per key). -/
abbrev Store := List (String × List DBMessage)

/-- Reading `messagesStore[id]`. -/
def lookupThread (s : Store) (id : String) : Option (List DBMessage) :=
  (s.find? (fun p => p.1 == id)).map (fun p => p.2)

/-- State effect of `getMessageStore(id)`: when no thread exists for
`id`, `messagesStore[id] = [{ role: "system", content: SYSTEM_PROMPT }]`;
otherwise the store is untouched. -/
def getMessageStore (s : Store) (id : String) : Store :=
  if (lookupThread s id).isSome then s else s ++ [(id, [seedMessage])]

/-- State effect of the handle method `addMessage(message)`:
`messageList.push(message)` on the thread the handle was obtained
for.  (In the source the handle closes over the array of an existing
thread; on an id with no thread the operation cannot arise and is a
no-op here.) -/
def addMessage (s : Store) (id : String) (m : DBMessage) : Store :=
  s.map (fun p => if p.1 == id then (p.1, p.2 ++ [m]) else p)

/-- Value produced by the handle method
`getOpenAICompatibleMessageList()`: each stored message is shallow
copied (`{ ...m }`) and the copy loses its `id` key
(`delete message.id`). -/
def getOpenAICompatibleMessageList (l : List DBMessage) : List DBMessage :=
  l.map (fun m => { m with id := none })

end MessageStore

namespace ChatRoute

/-- Exact text of the `SYSTEM_PROMPT` template literal of
`src/routes/chat.ts` (the prompt used when the request context is not
`"leverage-loops"`). -/
def SYSTEM_PROMPT : String :=
  "You are a concise AI assistant for Orbiter.\n\nCRITICAL RULES - Follow these strictly:\n1. Keep responses SHORT (2-4 sentences max for simple questions).\n2. Use ONLY plain markdown: headers, bold, bullet lists, links.\n3. NEVER use these components: Chart, Graph, Table, Tabs, Carousel, Accordion, Timeline, Layout, Section, DataTable, Kanban, Calendar.\n4. For data, use simple bullet points - never tables or charts.\n5. Avoid nested structures or complex formatting.\n6. Get straight to the point - no unnecessary preamble.\n\nYou may use: simple text, headers, bullet lists, numbered lists, bold, links.\nBe helpful but brief."

/-- Exact text of the `LEVERAGE_LOOP_SYSTEM_PROMPT` template literal of
`src/routes/chat.ts` (the apostrophe is written as the escape `\x27`). -/
def LEVERAGE_LOOP_SYSTEM_PROMPT : String :=
  "You are a concise AI assistant for Orbiter helping users with leverage loops.\n\nCRITICAL RULES - Follow these strictly:\n1. Keep responses SHORT (2-4 sentences max for simple questions).\n2. Use ONLY plain markdown: headers, bold, bullet lists, links.\n3. NEVER use these components: Chart, Graph, Table, Tabs, Carousel, Accordion, Timeline, Layout, Section, DataTable, Kanban, Calendar.\n4. For data, use simple bullet points - never tables or charts.\n5. Avoid nested structures or complex formatting.\n6. Get straight to the point - no unnecessary preamble.\n\nIMPORTANT - SUMMARY REQUIREMENT:\nAt the END of EVERY response, you MUST include a brief conversation summary in this exact format:\n[SUMMARY]A 2-3 sentence summary of what the user wants to accomplish in this conversation and how we can help them achieve it. Do not include extra details about the user\nsince we already know who they are.[/SUMMARY]\n\nThe summary should capture the user\x27s main goal or request. Update the summary as the conversation progresses to reflect the current understanding of what the user wants help with.\n\nExample response format:\nHere are some people I can help you connect with...\n\n[SUMMARY]User wants to find people to introduce to John Smith for business development opportunities.[/SUMMARY]\n\nBe helpful but brief."

/-- Request body of the chat endpoint: `{ prompt, threadId, responseId, context? }`. -/
structure ChatRequest where
  prompt : DBMessage
  threadId : String
  responseId : String
  context : Option String := none
deriving Repr, DecidableEq

/-- Observable state of the Express response object: header fields
recorded by `setHeader`, whether a header block has been transmitted
to the client (`headersSent`), how many times a header block was
transmitted, the body chunks written so far, whether the response was
ended, and whether the 500 JSON error body was sent. -/
structure Res where
  pendingHeaders : List (String × String) := []
  headersSent : Bool := false
  headerFlushes : Nat := 0
  chunks : List String := []
  ended : Bool := false
  errorJsonSent : Bool := false
deriving Repr, DecidableEq

/-- The response object at the start of the handler. -/
def initialRes : Res := {}

/-- Express `res.setHeader(name, value)`: records the field, does not
transmit anything. -/
def setHeader (r : Res) (field value : String) : Res :=
  { r with pendingHeaders := r.pendingHeaders ++ [(field, value)] }

/-- Header transmission: the header block goes out at most once, just
before the first body byte; afterwards `headersSent` is true. -/
def flushHeaders (r : Res) : Res :=
  if r.headersSent then r
  else { r with headersSent := true, headerFlushes := r.headerFlushes + 1 }

/-- Express `res.write(chunk)`: transmits the header block if it has
not gone out yet, then appends the chunk to the body. -/
def resWrite (r : Res) (c : String) : Res :=
  let r1 := flushHeaders r
  { r1 with chunks := r1.chunks ++ [c] }

/-- Express `res.end()`: transmits the header block if needed and
closes the response. -/
def resEnd (r : Res) : Res :=
  let r1 := flushHeaders r
  { r1 with ended := true }

/-- Express `res.status(500).json(...)`: transmits a header block and
the JSON error body. -/
def sendErrorJson (r : Res) : Res :=
  let r1 := flushHeaders r
  { r1 with errorJsonSent := true, ended := true }

/-- The three `res.setHeader` calls of the route before streaming. -/
def setSSEHeaders (r : Res) : Res :=
  setHeader
    (setHeader (setHeader r "Content-Type" "text/event-stream")
      "Cache-Control" "no-cache, no-transform")
    "Connection" "keep-alive"

/-- How the stream of delta fragments produced by the completion call
finishes: natural completion, or an error raised by the fragment
source before completion. -/
inductive StreamEnd
  | natural
  | errored
deriving Repr, DecidableEq

/-- The `onEnd` accumulation of the route:
`accumulated.filter((msg) => msg).join("")` — drop falsy (empty)
fragments and concatenate the rest in order. -/
def accumulatedMessage (frags : List String) : String :=
  String.join (frags.filter (fun f => !(f == "")))

/-- The system message the seeding branch of the route would add:
`context === "leverage-loops" ? LEVERAGE_LOOP_SYSTEM_PROMPT : SYSTEM_PROMPT`. -/
def seededSystemMessage (context : Option String) : DBMessage :=
  { role := "system",
    content :=
      if context == some "leverage-loops" then LEVERAGE_LOOP_SYSTEM_PROMPT
      else SYSTEM_PROMPT }

open MessageStore in
/-- The store effect of the route up to the point streaming begins:
`getMessageStore(threadId)`, then the seeding branch guarded by
`getOpenAICompatibleMessageList().length === 0`, then
`addMessage(prompt)`. -/
def prepareStore (store : Store) (req : ChatRequest) : Store :=
  let store1 := getMessageStore store req.threadId
  let msgs := (lookupThread store1 req.threadId).getD []
  let store2 :=
    if (getOpenAICompatibleMessageList msgs).length = 0 then
      addMessage store1 req.threadId (seededSystemMessage req.context)
    else store1
  addMessage store2 req.threadId req.prompt

/-- The catch block of the route: log, and only when the response
headers have not been sent, reply `res.status(500).json(...)`. -/
def chatCatch (r : Res) : Res :=
  if r.headersSent then r else sendErrorJson r

open MessageStore in
/-- Whole route handler for one request, with the completion stream
abstracted by the list of delta fragments it delivers and how it ends.

Modelled from the spec: the bodies of `transformStream`
(`@crayonai/stream`) and of the OpenAI `runTools` stream are not part
of this repository; per the spec (sections 4.5 and 7) the transform
stream re-emits each mapped fragment as it arrives, invokes `onEnd`
with the accumulated fragments exactly on natural completion, and on
a source error the readable side errors, so the pending `read()`
rejects and control reaches the route catch block without `onEnd`
having run. -/
def handleChat (store : Store) (req : ChatRequest) (frags : List String)
    (outcome : StreamEnd) : Store × Res :=
  let store3 := prepareStore store req
  let res0 := setSSEHeaders initialRes
  let res1 := frags.foldl resWrite res0
  match outcome with
  | .natural =>
      (addMessage store3 req.threadId
        { role := "assistant", content := accumulatedMessage frags,
          id := some req.responseId },
       resEnd res1)
  | .errored => (store3, chatCatch res1)

/-- Header-accounting invariant of the response object: the number of
transmitted header blocks is 1 when `headersSent` and 0 otherwise. -/
def headerAccount (r : Res) : Prop :=
  r.headerFlushes = (if r.headersSent then 1 else 0)

/-- Sample user prompt message used by the concrete test runs. -/
def userHi : DBMessage := { role := "user", content := "hi" }

/-- Sample request without a mode context (thread `"t1"`, response id
`"r1"`). -/
def reqHello : ChatRequest :=
  { prompt := userHi, threadId := "t1", responseId := "r1", context := none }

/-- Sample request whose context selects the leverage-loops mode. -/
def reqLeverage : ChatRequest :=
  { prompt := userHi, threadId := "t1", responseId := "r1",
    context := some "leverage-loops" }

end ChatRoute

namespace MessageStore

/-- One observable operation against the message store module: a call
of `getMessageStore(id)` (its state effect), or a call of
`addMessage(m)` on the handle obtained for thread `id`. -/
inductive StoreOp
  | getStore (id : String)
  | addMsg (id : String) (m : DBMessage)
deriving Repr, DecidableEq

/-- Applying one store operation to the store state. -/
def applyOp (s : Store) : StoreOp → Store
  | .getStore id => getMessageStore s id
  | .addMsg id m => addMessage s id m

/-- Applying a sequence of store operations in order. -/
def applyOps (ops : List StoreOp) (s : Store) : Store :=
  ops.foldl applyOp s

/-- Invariant tying a store state to the operations that may have
produced it: every existing thread starts with the system seed, and
every message after the seed entered through an `addMessage`
operation of the sequence — so nothing but thread creation ever
inserts a seed. -/
def threadInv (ops : List StoreOp) (s : Store) : Prop :=
  ∀ id l, lookupThread s id = some l →
    l.head? = some seedMessage ∧ ∀ m ∈ l.tail, StoreOp.addMsg id m ∈ ops

/-- A JS heap of message objects: cell `r` holds the object
referenced by `r`; allocation appends a cell.  This refines the
value-level model to capture that
`getOpenAICompatibleMessageList` copies objects (`{ ...m }`) and
deletes the `id` key only on the copies. -/
structure JsHeap where
  cells : List DBMessage
deriving Repr, DecidableEq

/-- Placeholder object for reads of an unallocated reference (never
reached on valid references). -/
def defaultCell : DBMessage := { role := "", content := "" }

/-- Dereferencing `r` in the heap. -/
def readRef (h : JsHeap) (r : Nat) : DBMessage :=
  h.cells.getD r defaultCell

/-- Allocating a fresh object: the new cell is appended and its
reference returned. -/
def alloc (h : JsHeap) (m : DBMessage) : JsHeap × Nat :=
  (⟨h.cells ++ [m]⟩, h.cells.length)

/-- One step of the `map` callback of
`getOpenAICompatibleMessageList` at the object level:
`const message = { ...m }` allocates a shallow copy,
`delete message.id` clears the id of the copy; the original cell is
untouched. -/
def snapshotStep (acc : JsHeap × List Nat) (r : Nat) : JsHeap × List Nat :=
  let copy := { readRef acc.1 r with id := none }
  let (h1, r1) := alloc acc.1 copy
  (h1, acc.2 ++ [r1])

/-- Object-level `getOpenAICompatibleMessageList()`: the snapshot
step folded over the references stored in the thread, returning the
heap extended with the copies and the references of the copies in
order. -/
def snapshotJS (h : JsHeap) (refs : List Nat) : JsHeap × List Nat :=
  refs.foldl snapshotStep (h, [])

end MessageStore

namespace XanoMcp

/-- A tool as listed by the MCP server: name, optional description
and input JSON schema (the schema is kept opaque, as its serialized
form). -/
structure McpServerTool where
  name : String
  description : Option String := none
  inputSchema : String := ""
deriving Repr, DecidableEq

/-- A tool in the OpenAI function format `connect` converts to. -/
structure OpenAITool where
  name : String
  description : String
  parameters : String
deriving Repr, DecidableEq

/-- Conversion applied to each listed tool inside `connect`:
`description: tool.description || ""`, schema passed through. -/
def convertTool (t : McpServerTool) : OpenAITool :=
  { name := t.name, description := t.description.getD "",
    parameters := t.inputSchema }

/-- The transport object, observable through the headers it was
created with. -/
structure TransportHandle where
  headers : List (String × String)
deriving Repr, DecidableEq

/-- Fields of the `XanoMcpClient` class of
`src/unnamed/part_000` (the variant with credential headers; the
`src/services/mcp/xanoMcpClient.ts` variant is the same machine
without the credential fields). -/
structure XanoMcpClient where
  mcpUrl : String
  authToken : Option String := none
  dataSource : Option String := none
  tools : List OpenAITool := []
  transport : Option TransportHandle := none
  connected : Bool := false
deriving Repr, DecidableEq

/-- Method `isConnected()`. -/
def isConnected (c : XanoMcpClient) : Bool := c.connected

/-- Method `setHeaders(authToken?, dataSource?)`: overwrites both
credential fields with the given values. -/
def setHeaders (c : XanoMcpClient) (authToken dataSource : Option String) :
    XanoMcpClient :=
  { c with authToken := authToken, dataSource := dataSource }

/-- The custom header record built inside `connect`: content type
always, authorization and data-source only when the corresponding
credential is truthy. -/
def buildHeaders (c : XanoMcpClient) : List (String × String) :=
  [("Content-Type", "application/json")]
    ++ (if tsTruthy c.authToken then
          [("Authorization", "Bearer " ++ c.authToken.getD "")]
        else [])
    ++ (if tsTruthy c.dataSource then
          [("x-data-source", c.dataSource.getD "")]
        else [])

/-- Externally visible effects of the client methods. -/
inductive McpEffect
  | openTransport (headers : List (String × String))
  | clientConnect
  | listTools
  | closeTransport
deriving Repr, DecidableEq

/-- Outcome of the awaited connect-and-discover sequence against the
remote server: `client.connect` rejects, `client.listTools` rejects,
or the listing succeeds with the given server tools. -/
inductive ConnectWorld
  | connectFails (e : String)
  | listFails (e : String)
  | listed (serverTools : List McpServerTool)
deriving Repr, DecidableEq

/-- Method `connect()`: early return when already connected;
otherwise build headers, create the transport, connect, list tools,
cache the converted catalogue and mark connected.  A rejection is
rethrown (the error component); the transport field has already been
assigned when that happens. -/
def connect (w : ConnectWorld) (c : XanoMcpClient) :
    XanoMcpClient × List McpEffect × Option String :=
  if c.connected then (c, [], none)
  else
    let headers := buildHeaders c
    let c1 := { c with transport := some ⟨headers⟩ }
    match w with
    | .connectFails e =>
        (c1, [.openTransport headers, .clientConnect], some e)
    | .listFails e =>
        (c1, [.openTransport headers, .clientConnect, .listTools], some e)
    | .listed ts =>
        ({ c1 with tools := ts.map convertTool, connected := true },
         [.openTransport headers, .clientConnect, .listTools], none)

/-- JSON string escaping of `JSON.stringify` restricted to the
characters the error payload can contain: quote and backslash. -/
def jsonEscapeChar (ch : Char) : String :=
  if ch = '"' then "\\\"" else if ch = '\\' then "\\\\" else String.singleton ch

/-- A JSON string literal for `s`. -/
def jsonQuote (s : String) : String :=
  "\"" ++ String.join (s.toList.map jsonEscapeChar) ++ "\""

/-- Serialization `JSON.stringify({ error: msg })` of the structured
error object `runTool` returns on a thrown RPC. -/
def jsonErrorObject (msg : String) : String :=
  "\x7b\"error\":" ++ jsonQuote msg ++ "\x7d"

/-- Outcome of the awaited `client.callTool` RPC: the result,
represented by the serialization `JSON.stringify(result.content)` of
its content, or a thrown value (`some m` when the thrown value is an
`Error` with message `m`, `none` for a non-`Error` throw). -/
inductive CallToolOutcome
  | succeeded (serializedContent : String)
  | threw (errorMessage : Option String)
deriving Repr, DecidableEq

/-- The tool-role message `runTool` resolves with. -/
structure ToolMessage where
  tool_call_id : String
  role : String
  content : String
deriving Repr, DecidableEq

/-- Method `runTool({ tool_call_id, name, args })`: call the RPC and
wrap either the serialized result content or the caught error in a
tool-role message tagged with the same `tool_call_id`.  The function
is total: a thrown RPC is converted, never re-raised. -/
def runTool (w : CallToolOutcome) (c : XanoMcpClient)
    (tool_call_id toolName : String) (args : List (String × String)) :
    ToolMessage :=
  match w with
  | .succeeded serialized =>
      { tool_call_id := tool_call_id, role := "tool", content := serialized }
  | .threw e =>
      let errorMessage := e.getD "Unknown error"
      { tool_call_id := tool_call_id, role := "tool",
        content := jsonErrorObject ("Tool call failed: " ++ errorMessage) }

/-- Environment read by the module-level functions: the
`XANO_MCP_URL` environment variable. -/
structure ModuleEnv where
  xanoMcpUrl : Option String
deriving Repr, DecidableEq

/-- Module function `getXanoMcpClient(authToken?, dataSource?)` of
`src/unnamed/part_000`, acting on the module-level singleton `g`:
when no singleton exists it requires a truthy `XANO_MCP_URL` (else
throws) and creates the client; when one exists it updates the
credential context via `setHeaders` — but only when at least one
truthy credential was passed — and returns the existing client.
The first component is the module singleton after the call. -/
def getXanoMcpClient (env : ModuleEnv) (g : Option XanoMcpClient)
    (authToken dataSource : Option String) :
    Option XanoMcpClient × Except String XanoMcpClient :=
  match g with
  | none =>
      if tsTruthy env.xanoMcpUrl then
        let c : XanoMcpClient :=
          { mcpUrl := env.xanoMcpUrl.getD "", authToken := authToken,
            dataSource := dataSource }
        (some c, .ok c)
      else (none, .error "XANO_MCP_URL environment variable is not set")
  | some c =>
      if tsTruthy authToken || tsTruthy dataSource then
        let c1 := setHeaders c authToken dataSource
        (some c1, .ok c1)
      else (some c, .ok c)

/-- Module function `ensureXanoMcpConnection(authToken?, dataSource?)`:
get (or create) the singleton, and when it is not connected run
`connect` on it.  Besides the call result, the new singleton state
and the effects of the call are returned. -/
def ensureXanoMcpConnection (env : ModuleEnv) (w : ConnectWorld)
    (g : Option XanoMcpClient) (authToken dataSource : Option String) :
    Option XanoMcpClient × List McpEffect × Except String XanoMcpClient :=
  match getXanoMcpClient env g authToken dataSource with
  | (g1, .error e) => (g1, [], .error e)
  | (_, .ok c) =>
      if isConnected c then (some c, [], .ok c)
      else
        match connect w c with
        | (c1, effs, none) => (some c1, effs, .ok c1)
        | (c1, effs, some e) => (some c1, effs, .error e)

end XanoMcp

end CopilotApi

namespace CopilotApi

open MessageStore

/-- Claim C9: for every thread, `getOpenAICompatibleMessageList`
returns the thread messages in stored order — same roles and
contents at every position — with the bookkeeping `id` field absent
from every returned message. -/
theorem c9_snapshot_strips_ids (l : List DBMessage) :
    (getOpenAICompatibleMessageList l).map (fun m => (m.role, m.content))
      = l.map (fun m => (m.role, m.content))
    ∧ (getOpenAICompatibleMessageList l).map DBMessage.id
      = List.replicate l.length none := by
  constructor
  · simp [getOpenAICompatibleMessageList]
  · induction l with
    | nil => rfl
    | cons m t ih => simpa [getOpenAICompatibleMessageList, List.replicate] using ih

open ChatRoute

/-- Helper: `flushHeaders` establishes and preserves the header
accounting invariant. -/
theorem headerAccount_flushHeaders (r : Res) (h : headerAccount r) :
    headerAccount (flushHeaders r) := by
  unfold headerAccount flushHeaders at *
  by_cases hs : r.headersSent <;> simp [hs] at h ⊢ <;> simp [h]

/-- Helper: `resWrite` preserves the header accounting invariant. -/
theorem headerAccount_resWrite (r : Res) (c : String) (h : headerAccount r) :
    headerAccount (resWrite r c) := by
  have h1 := headerAccount_flushHeaders r h
  unfold headerAccount resWrite at *
  simp [h1]

/-- Helper: a fold of `resWrite` preserves the header accounting
invariant. -/
theorem headerAccount_foldl (frags : List String) (r : Res) (h : headerAccount r) :
    headerAccount (frags.foldl resWrite r) := by
  induction frags generalizing r with
  | nil => exact h
  | cons f t ih => exact ih _ (headerAccount_resWrite r f h)

/-- Helper: the header accounting invariant bounds the number of
transmitted header blocks after the catch block by one. -/
theorem headerAccount_chatCatch_le (r : Res) (h : headerAccount r) :
    (chatCatch r).headerFlushes ≤ 1 := by
  unfold headerAccount at h
  unfold chatCatch sendErrorJson
  by_cases hs : r.headersSent
  · simpa [hs, h] using le_refl 1
  · have h1 := headerAccount_flushHeaders r h
    unfold headerAccount at h1
    by_cases hs2 : (flushHeaders r).headersSent <;> simp [hs, hs2] at h1 ⊢ <;> omega

/-- Helper: the response at the start of streaming satisfies the
header accounting invariant (only `setHeader` calls so far, nothing
transmitted). -/
theorem headerAccount_start : headerAccount (setSSEHeaders initialRes) := by
  unfold headerAccount setSSEHeaders setHeader initialRes
  simp

/-- Claim C3: when the fragment source errors before natural
completion, the thread store after the request is exactly the store
at the moment streaming began (`prepareStore` — no assistant message,
partial or otherwise, is appended), and the response transmits at
most one header block, so headers are never written a second time
once streaming has begun. -/
theorem c3_error_terminates_without_persisting (store : Store) (req : ChatRequest)
    (frags : List String) :
    (handleChat store req frags .errored).1 = prepareStore store req
    ∧ (handleChat store req frags .errored).2.headerFlushes ≤ 1 := by
  refine ⟨rfl, ?_⟩
  exact headerAccount_chatCatch_le _ (headerAccount_foldl frags _ headerAccount_start)

/-- Claim C4: for the fragment sequence `["Hel", "lo"]` with
responseId `"r1"`, the relay writes `"Hel"` then `"lo"` to the client
in that order and, on natural completion, the thread holds exactly
one new assistant message, of content `"Hello"` and id `"r1"`,
after the seed and the user prompt. -/
theorem c4_relay_hello_appends_once :
    (handleChat [] reqHello ["Hel", "lo"] .natural).2.chunks = ["Hel", "lo"]
    ∧ lookupThread (handleChat [] reqHello ["Hel", "lo"] .natural).1 "t1"
      = some [seedMessage, userHi,
          { role := "assistant", content := "Hello", id := some "r1" }] := by
  exact ⟨rfl, rfl⟩

/-- Claim C1 (failing input): for the previously unseen thread id
`"t1"` with request context `"leverage-loops"`, the thread is created
seeded with the generic `SYSTEM_PROMPT` of `messageStore.ts` — the
route seeding branch is dead because `getMessageStore` has already
seeded the thread, so the seeded content is not the leverage-loop
prompt (and not the route default prompt either). -/
theorem c1_leverage_loops_seeded_with_store_prompt :
    lookupThread (prepareStore [] reqLeverage) "t1" = some [seedMessage, userHi]
    ∧ seedMessage.content = MessageStore.SYSTEM_PROMPT
    ∧ seedMessage.content ≠ ChatRoute.LEVERAGE_LOOP_SYSTEM_PROMPT
    ∧ seedMessage.content ≠ ChatRoute.SYSTEM_PROMPT := by
  refine ⟨rfl, rfl, ?_, ?_⟩ <;> decide

/-- Helper: `getMessageStore` leaves the store unchanged on an id
whose thread already exists. -/
theorem getMessageStore_of_isSome (s : Store) (id : String)
    (h : (lookupThread s id).isSome) : getMessageStore s id = s := by
  unfold getMessageStore
  simp [h]

/-- Helper: looking up any id after `addMessage` sees the appended
message on the target thread and no change on any other thread. -/
theorem lookupThread_addMessage (s : Store) (id id' : String) (m : DBMessage) :
    lookupThread (addMessage s id m) id'
      = (lookupThread s id').map (fun l => if id' == id then l ++ [m] else l) := by
  induction s with
  | nil => rfl
  | cons p t ih =>
      by_cases h1 : p.1 == id'
      · have he : p.1 = id' := by simpa using h1
        subst he
        by_cases h2 : p.1 == id
        · have he2 : p.1 = id := by simpa using h2
          simp [addMessage, lookupThread, List.find?, h2, he2]
        · have hne : ¬ p.1 = id := by simpa using h2
          simp [addMessage, lookupThread, List.find?, h2, hne]
      · have hstep : lookupThread (addMessage t id m) id'
            = (lookupThread t id').map (fun l => if id' == id then l ++ [m] else l) := ih
        by_cases h2 : p.1 == id
        · simpa [addMessage, lookupThread, List.find?, h1, h2] using hstep
        · simpa [addMessage, lookupThread, List.find?, h1, h2] using hstep

/-- Helper: looking up any id after the seeding append of
`getMessageStore`. -/
theorem lookupThread_append_seed (s : Store) (id id' : String) :
    lookupThread (s ++ [(id, [seedMessage])]) id'
      = match lookupThread s id' with
        | some l => some l
        | none => if id == id' then some [seedMessage] else none := by
  induction s with
  | nil =>
      by_cases h : id == id' <;> simp [lookupThread, List.find?, h]
  | cons p t ih =>
      by_cases h1 : p.1 == id'
      · simp [lookupThread, List.find?, h1]
      · simpa [lookupThread, List.find?, h1] using ih

/-- Helper: one store operation preserves the thread invariant, for
any operation list containing it. -/
theorem threadInv_applyOp (ops : List StoreOp) (s : Store) (op : StoreOp)
    (hop : op ∈ ops) (h : threadInv ops s) : threadInv ops (applyOp s op) := by
  cases op with
  | getStore tid =>
      intro id l hl
      simp only [applyOp] at hl
      unfold getMessageStore at hl
      by_cases hs : (lookupThread s tid).isSome
      · rw [if_pos hs] at hl
        exact h id l hl
      · rw [if_neg hs] at hl
        rw [lookupThread_append_seed] at hl
        cases hfind : lookupThread s id with
        | some l0 =>
            rw [hfind] at hl
            exact h id l (by rw [hfind, ← hl])
        | none =>
            rw [hfind] at hl
            by_cases heq : tid == id
            · rw [if_pos heq] at hl
              have hl2 : [seedMessage] = l := by simpa using hl
              subst hl2
              refine ⟨rfl, fun m hm => absurd hm ?_⟩
              simp
            · rw [if_neg heq] at hl
              simp at hl
  | addMsg tid m =>
      intro id l hl
      simp only [applyOp] at hl
      rw [lookupThread_addMessage] at hl
      cases hfind : lookupThread s id with
      | none => rw [hfind] at hl; simp at hl
      | some l0 =>
          rw [hfind] at hl
          have hl2 : (if id == tid then l0 ++ [m] else l0) = l := by
            simpa using hl
          obtain ⟨hhead, htail⟩ := h id l0 hfind
          by_cases heq : id == tid
          · rw [if_pos heq] at hl2
            have hid : id = tid := by simpa using heq
            cases l0 with
            | nil => simp at hhead
            | cons a t0 =>
                subst hl2
                refine ⟨by simpa using hhead, ?_⟩
                intro m' hm'
                simp only [List.cons_append, List.tail_cons] at hm'
                rcases List.mem_append.mp hm' with hin | hin
                · exact htail m' (by simpa using hin)
                · have hm2 : m' = m := by simpa using hin
                  subst hm2
                  subst hid
                  exact hop
          · rw [if_neg heq] at hl2
            subst hl2
            exact ⟨hhead, htail⟩

/-- Helper: a sequence of store operations drawn from `ops` preserves
the thread invariant for `ops`. -/
theorem threadInv_applyOps (ops2 : List StoreOp) :
    ∀ (ops : List StoreOp) (s : Store), (∀ o ∈ ops, o ∈ ops2) →
      threadInv ops2 s → threadInv ops2 (applyOps ops s) := by
  intro ops
  induction ops with
  | nil => intro s _ h; exact h
  | cons op rest ih =>
      intro s hsub h
      have h1 : threadInv ops2 (applyOp s op) :=
        threadInv_applyOp ops2 s op (hsub op (by simp)) h
      exact ih (applyOp s op) (fun o ho => hsub o (by simp [ho])) h1

/-- Claim C5: for every sequence of `getMessageStore` and
`addMessage` operations starting from the empty store, every thread
that exists afterwards has the system seed as its first message,
everything after the seed came from an explicit `addMessage`
operation (so no operation other than thread creation ever inserts a
seed), and a further `getMessageStore` on an existing thread leaves
the store unchanged — the seed is inserted exactly once, at the
moment the thread is created. -/
theorem c5_seed_inserted_exactly_once (ops : List StoreOp) (id : String)
    (l : List DBMessage) (h : lookupThread (applyOps ops []) id = some l) :
    l.head? = some seedMessage
    ∧ (∀ m ∈ l.tail, StoreOp.addMsg id m ∈ ops)
    ∧ applyOp (applyOps ops []) (StoreOp.getStore id) = applyOps ops [] := by
  have hinv : threadInv ops (applyOps ops []) :=
    threadInv_applyOps ops ops [] (fun _ ho => ho)
      (fun id' l' hl' => by simp [lookupThread] at hl')
  obtain ⟨hhead, htail⟩ := hinv id l h
  refine ⟨hhead, htail, ?_⟩
  unfold applyOp
  exact getMessageStore_of_isSome _ _ (by simp [h])

/-- Witness for C5 at the concrete run `getMessageStore "t"` then
`addMessage "t" userHi`. -/
theorem c5_witness :
    ([seedMessage, ChatRoute.userHi].head? = some seedMessage)
    ∧ (∀ m ∈ [seedMessage, ChatRoute.userHi].tail,
        StoreOp.addMsg "t" m ∈ [StoreOp.getStore "t", StoreOp.addMsg "t" ChatRoute.userHi])
    ∧ applyOp (applyOps [StoreOp.getStore "t", StoreOp.addMsg "t" ChatRoute.userHi] [])
        (StoreOp.getStore "t")
      = applyOps [StoreOp.getStore "t", StoreOp.addMsg "t" ChatRoute.userHi] [] :=
  c5_seed_inserted_exactly_once
    [StoreOp.getStore "t", StoreOp.addMsg "t" ChatRoute.userHi] "t"
    [seedMessage, ChatRoute.userHi] (by rfl)

/-- Helper: extending the heap does not change a valid reference. -/
theorem readRef_append (h : JsHeap) (ext : List DBMessage) (r : Nat)
    (hr : r < h.cells.length) : readRef ⟨h.cells ++ ext⟩ r = readRef h r :=
  List.getD_append h.cells ext defaultCell r hr

/-- Helper: the freshly allocated cell reads back the allocated
object. -/
theorem readRef_new (h : JsHeap) (m : DBMessage) :
    readRef ⟨h.cells ++ [m]⟩ h.cells.length = m := by
  unfold readRef
  simp [List.getD_append_right]

/-- Helper: a fold of the snapshot step only appends cells, keeps all
produced references valid, and the produced references read back the
id-stripped values of the input references. -/
theorem snapshotStep_foldl_spec :
    ∀ (refs : List Nat) (h : JsHeap) (acc : List Nat),
      (∀ r ∈ refs, r < h.cells.length) → (∀ a ∈ acc, a < h.cells.length) →
      (∃ ext, (refs.foldl snapshotStep (h, acc)).1.cells = h.cells ++ ext)
      ∧ (∀ a ∈ (refs.foldl snapshotStep (h, acc)).2,
          a < (refs.foldl snapshotStep (h, acc)).1.cells.length)
      ∧ (refs.foldl snapshotStep (h, acc)).2.map
            (readRef (refs.foldl snapshotStep (h, acc)).1)
        = acc.map (readRef h)
            ++ refs.map (fun r => { readRef h r with id := none }) := by
  intro refs
  induction refs with
  | nil =>
      intro h acc _ hacc
      exact ⟨⟨[], by simp⟩, hacc, by simp⟩
  | cons r rs ih =>
      intro h acc hrefs hacc
      have hr : r < h.cells.length := hrefs r (by simp)
      set copy : DBMessage := { readRef h r with id := none } with hcopy
      set h1 : JsHeap := ⟨h.cells ++ [copy]⟩ with hh1
      have hlen1 : h.cells.length < h1.cells.length := by simp [hh1]
      have hstep : (r :: rs).foldl snapshotStep (h, acc)
          = rs.foldl snapshotStep (h1, acc ++ [h.cells.length]) := rfl
      have hrefs1 : ∀ x ∈ rs, x < h1.cells.length :=
        fun x hx => lt_trans (hrefs x (by simp [hx])) hlen1
      have hacc1 : ∀ a ∈ acc ++ [h.cells.length], a < h1.cells.length := by
        intro a ha
        rcases List.mem_append.mp ha with ha | ha
        · exact lt_trans (hacc a ha) hlen1
        · have : a = h.cells.length := by simpa using ha
          simpa [this, hh1] using hlen1
      obtain ⟨⟨ext, hext⟩, hvalid, hvals⟩ := ih h1 (acc ++ [h.cells.length]) hrefs1 hacc1
      rw [hstep]
      refine ⟨⟨[copy] ++ ext, by simpa [hh1, List.append_assoc] using hext⟩, hvalid, ?_⟩
      have hreadacc : ∀ a ∈ acc, readRef h1 a = readRef h a :=
        fun a ha => readRef_append h [copy] a (hacc a ha)
      have hreadnew : readRef h1 h.cells.length = copy := readRef_new h copy
      have hreadrs : ∀ x ∈ rs, readRef h1 x = readRef h x :=
        fun x hx => readRef_append h [copy] x (hrefs x (by simp [hx]))
      have e1 : acc.map (readRef h1) = acc.map (readRef h) :=
        List.map_congr_left hreadacc
      have e2 : rs.map (fun x => ({ readRef h1 x with id := none } : DBMessage))
          = rs.map (fun x => ({ readRef h x with id := none } : DBMessage)) :=
        List.map_congr_left (fun x hx => by rw [hreadrs x hx])
      rw [hvals, List.map_append, e1, e2]
      simp [hreadnew, hcopy, List.append_assoc]

/-- Claim C10: `getOpenAICompatibleMessageList` does not mutate the
stored messages.  At the object level: after a snapshot, every stored
reference still reads the same object (so every stored message keeps
its id), the returned references read the id-stripped copies of the
stored messages in order, and a second snapshot with no intervening
append returns an equal sequence of message values. -/
theorem c10_snapshot_does_not_mutate (h : JsHeap) (refs : List Nat)
    (hv : ∀ r ∈ refs, r < h.cells.length) :
    (∀ r ∈ refs, readRef (snapshotJS h refs).1 r = readRef h r)
    ∧ (snapshotJS h refs).2.map (readRef (snapshotJS h refs).1)
        = refs.map (fun r => { readRef h r with id := none })
    ∧ (snapshotJS (snapshotJS h refs).1 refs).2.map
          (readRef (snapshotJS (snapshotJS h refs).1 refs).1)
      = (snapshotJS h refs).2.map (readRef (snapshotJS h refs).1) := by
  obtain ⟨⟨ext, hext⟩, _, hvals⟩ :=
    snapshotStep_foldl_spec refs h [] hv (by intro a ha; simp at ha)
  have hkeep : ∀ r ∈ refs, readRef (snapshotJS h refs).1 r = readRef h r := by
    intro r hr
    unfold snapshotJS readRef
    rw [hext]
    exact List.getD_append h.cells ext defaultCell r (hv r hr)
  have hvals1 : (snapshotJS h refs).2.map (readRef (snapshotJS h refs).1)
      = refs.map (fun r => { readRef h r with id := none }) := by
    simpa [snapshotJS] using hvals
  refine ⟨hkeep, hvals1, ?_⟩
  have hv2 : ∀ r ∈ refs, r < (snapshotJS h refs).1.cells.length := by
    intro r hr
    have h1 : (snapshotJS h refs).1.cells = h.cells ++ ext := hext
    have : r < h.cells.length := hv r hr
    rw [h1, List.length_append]
    omega
  obtain ⟨_, _, hvals2⟩ :=
    snapshotStep_foldl_spec refs (snapshotJS h refs).1 [] hv2
      (by intro a ha; simp at ha)
  have hvals2' : (snapshotJS (snapshotJS h refs).1 refs).2.map
        (readRef (snapshotJS (snapshotJS h refs).1 refs).1)
      = refs.map (fun r => { readRef (snapshotJS h refs).1 r with id := none }) := by
    simpa [snapshotJS] using hvals2
  rw [hvals2', hvals1]
  exact List.map_congr_left (fun r hr => by rw [hkeep r hr])

/-- Witness for C10 at the one-message heap whose stored message has
id `"a"` and reference list `[0]`. -/
theorem c10_witness :
    (∀ r ∈ [0], readRef (snapshotJS ⟨[⟨"user", "hi", some "a"⟩]⟩ [0]).1 r
        = readRef ⟨[⟨"user", "hi", some "a"⟩]⟩ r)
    ∧ (snapshotJS ⟨[⟨"user", "hi", some "a"⟩]⟩ [0]).2.map
          (readRef (snapshotJS ⟨[⟨"user", "hi", some "a"⟩]⟩ [0]).1)
        = [0].map (fun r => { readRef ⟨[⟨"user", "hi", some "a"⟩]⟩ r with id := none })
    ∧ (snapshotJS (snapshotJS ⟨[⟨"user", "hi", some "a"⟩]⟩ [0]).1 [0]).2.map
          (readRef (snapshotJS (snapshotJS ⟨[⟨"user", "hi", some "a"⟩]⟩ [0]).1 [0]).1)
      = (snapshotJS ⟨[⟨"user", "hi", some "a"⟩]⟩ [0]).2.map
          (readRef (snapshotJS ⟨[⟨"user", "hi", some "a"⟩]⟩ [0]).1) :=
  c10_snapshot_does_not_mutate ⟨[⟨"user", "hi", some "a"⟩]⟩ [0] (by decide)

open XanoMcp

/-- Claim C6: `runTool` never raises — it is a total function into
tool messages — and for every RPC outcome its result carries the same
`tool_call_id` and role `tool`; on success the content is the
serialized call result, on a thrown RPC it is the serialization of
the structured error object built from the error message. -/
theorem c6_runTool_contains_errors (w : CallToolOutcome) (c : XanoMcpClient)
    (callId toolName : String) (args : List (String × String)) :
    (runTool w c callId toolName args).tool_call_id = callId
    ∧ (runTool w c callId toolName args).role = "tool"
    ∧ (runTool w c callId toolName args).content
      = (match w with
         | .succeeded s => s
         | .threw e =>
             jsonErrorObject ("Tool call failed: " ++ e.getD "Unknown error")) := by
  cases w <;> exact ⟨rfl, rfl, rfl⟩

/-- Claim C7: `connect` on an already-connected session is a no-op —
it returns with the state unchanged (connected flag, cached tool
catalogue, credential fields and transport all untouched), with no
effects (no transport opened, no tool listing) and no error; hence it
is idempotent. -/
theorem c7_connect_idempotent (w : ConnectWorld) (c : XanoMcpClient)
    (h : c.connected = true) : connect w c = (c, [], none) := by
  unfold connect
  simp [h]

/-- Witness for C7 at a concrete connected session. -/
theorem c7_witness :
    ({ mcpUrl := "https://xano.example", connected := true } : XanoMcpClient).connected = true
    ∧ connect (.listed []) { mcpUrl := "https://xano.example", connected := true }
      = ({ mcpUrl := "https://xano.example", connected := true }, [], none) :=
  ⟨rfl, c7_connect_idempotent (.listed []) _ rfl⟩

/-- Counterexample to C8 as stated: a session singleton can exist
while not connected (after a failed first connect or an explicit
disconnect); a call of `ensureXanoMcpConnection` then opens a
transport and re-runs tool discovery even though the singleton
already existed. -/
theorem c8_counterexample_disconnected_singleton :
    (ensureXanoMcpConnection { xanoMcpUrl := some "https://xano.example" }
        (.listed []) (some ({ mcpUrl := "https://xano.example" } : XanoMcpClient))
        (some "tok") none).2.1
      = [.openTransport
           [("Content-Type", "application/json"), ("Authorization", "Bearer tok")],
         .clientConnect, .listTools] := by
  rfl

/-- Claim C8 (amended): when the existing session singleton is
connected, `ensureXanoMcpConnection` updates its credential context
via `setHeaders` whenever at least one truthy credential is supplied
(and leaves it unchanged otherwise), and returns that session with no
effects — no transport closed or opened and no tool discovery — and
the credential update touches neither the transport, nor the cached
tool catalogue, nor the connected flag. -/
theorem c8_ensure_connected_updates_credentials_only (env : ModuleEnv)
    (w : ConnectWorld) (c : XanoMcpClient) (a d : Option String)
    (h : c.connected = true) :
    ensureXanoMcpConnection env w (some c) a d
      = (some (if tsTruthy a || tsTruthy d then setHeaders c a d else c), [],
         .ok (if tsTruthy a || tsTruthy d then setHeaders c a d else c))
    ∧ (setHeaders c a d).transport = c.transport
    ∧ (setHeaders c a d).tools = c.tools
    ∧ (setHeaders c a d).connected = true := by
  refine ⟨?_, rfl, rfl, h⟩
  unfold ensureXanoMcpConnection getXanoMcpClient
  by_cases ht : (tsTruthy a || tsTruthy d) = true
  · simp [ht, isConnected, setHeaders, h]
  · simp [ht, isConnected, h]

/-- Witness for C8 (amended) at a concrete connected session and a
truthy auth token. -/
theorem c8_witness :
    ({ mcpUrl := "https://xano.example", connected := true } : XanoMcpClient).connected = true
    ∧ (ensureXanoMcpConnection { xanoMcpUrl := some "https://xano.example" }
          (.listed []) (some ({ mcpUrl := "https://xano.example", connected := true } : XanoMcpClient))
          (some "tok") none
        = (some (if tsTruthy (some "tok") || tsTruthy none then
                   setHeaders { mcpUrl := "https://xano.example", connected := true } (some "tok") none
                 else { mcpUrl := "https://xano.example", connected := true }), [],
           .ok (if tsTruthy (some "tok") || tsTruthy none then
                  setHeaders { mcpUrl := "https://xano.example", connected := true } (some "tok") none
                else { mcpUrl := "https://xano.example", connected := true }))
       ∧ (setHeaders ({ mcpUrl := "https://xano.example", connected := true } : XanoMcpClient)
            (some "tok") none).transport
          = ({ mcpUrl := "https://xano.example", connected := true } : XanoMcpClient).transport
       ∧ (setHeaders ({ mcpUrl := "https://xano.example", connected := true } : XanoMcpClient)
            (some "tok") none).tools
          = ({ mcpUrl := "https://xano.example", connected := true } : XanoMcpClient).tools
       ∧ (setHeaders ({ mcpUrl := "https://xano.example", connected := true } : XanoMcpClient)
            (some "tok") none).connected = true) :=
  ⟨rfl, c8_ensure_connected_updates_credentials_only
    { xanoMcpUrl := some "https://xano.example" } (.listed [])
    { mcpUrl := "https://xano.example", connected := true } (some "tok") none rfl⟩

end CopilotApi
